import Mathlib

/-!
Shallow embedding of the Kiro executor (`crates/executors/src/executors/kiro.rs`)
and the Kiro setup route (`crates/server/src/routes/task_attempts/kiro_setup.rs`)
of the vibe-kanban repository.

Paths are modelled as lists of components, the filesystem as the list of
existing directories, process I/O as explicit event traces parametrised by
the outcomes of the OS calls, and the log-normalization side as pure
functions over chunk sequences.  Helper crates of the repository that are
not part of the two source files (command builder, overrides, prompt
combination, plain-text log processor) are modelled from the specification,
as marked on each definition.
-/

/-- Error type of the executor layer.  The source's `ExecutorError` variants
that the two files can produce: command-resolution failure, OS spawn
failure, stdin I/O failure, and the unsupported-platform error raised by
the non-unix `get_setup_helper_action`. -/
inductive ExecutorError where
  | commandNotFound
  | spawnFailed
  | ioError
  | unsupportedPlatform
deriving DecidableEq

/-- Modelled from the spec: the Command Builder holds a base executable
name (a command string) and a fixed parameter list. -/
structure CommandBuilder where
  base : String
  params : List String
deriving DecidableEq

/-- Modelled from the spec: `CommandBuilder::new` starts from a base
command with no parameters. -/
def CommandBuilder.new (base : String) : CommandBuilder :=
  ⟨base, []⟩

/-- Modelled from the spec: `extend_params(flags)` appends static flags,
order-preserving, no dedup. -/
def CommandBuilder.extend_params (cb : CommandBuilder) (flags : List String) : CommandBuilder :=
  { cb with params := cb.params ++ flags }

/-- Modelled from the spec: `CmdOverrides` may substitute the executable
(base command), append extra arguments, and inject an execution profile of
environment variables. -/
structure CmdOverrides where
  base_command_override : Option String
  additional_params : Option (List String)
  profile_env : Option (List (String × String))
deriving DecidableEq

/-- Modelled from the spec: override application is the last step before
resolution; it may substitute the base command and appends the
user-supplied extra arguments after the fixed parameters. -/
def apply_overrides (cb : CommandBuilder) (ov : CmdOverrides) : CommandBuilder :=
  { base := ov.base_command_override.getD cb.base,
    params := cb.params ++ ov.additional_params.getD [] }

/-- Splitting a base command string into whitespace-separated words, used
when the command parts are assembled (the base "kiro-cli chat" resolves to
executable "kiro-cli" with first argument "chat"). -/
def shell_words (s : String) : List String :=
  (s.splitOn " ").filter (fun w => w ≠ "")

/-- Modelled from the spec: `build_initial()` yields the base command with
its accumulated parameters. -/
def CommandBuilder.build_initial (cb : CommandBuilder) : List String :=
  shell_words cb.base ++ cb.params

/-- Modelled from the spec: `build_follow_up(extra_flags)` yields base +
extra flags appended after base params (e.g. the resume flag). -/
def CommandBuilder.build_follow_up (cb : CommandBuilder) (extra : List String) : List String :=
  shell_words cb.base ++ cb.params ++ extra

/-- Modelled from the spec: resolution (`into_resolved`) splits the command
parts into executable and argument list and must fail with a reportable
error if the executable cannot be located; locating the executable on the
search path is an OS interaction, modelled by the boolean `resolve_ok`. -/
def into_resolved (parts : List String) (resolve_ok : Bool) :
    Except ExecutorError (String × List String) :=
  if resolve_ok then
    match parts with
    | [] => .error .commandNotFound
    | exe :: args => .ok (exe, args)
  else .error .commandNotFound

/-- The Kiro executor configuration (`struct Kiro`): an optional prompt
suffix, an optional model selection and command overrides.  The
`approvals` service field of the source is ignored by `spawn`,
`spawn_follow_up` and `normalize_logs` and is not modelled. -/
structure Kiro where
  append_prompt : Option String
  model : Option String
  cmd : CmdOverrides
deriving DecidableEq

/-- `Kiro::build_command_builder`: base command "kiro-cli chat" with the
fixed flags `--no-interactive` and `--trust-all-tools`, then the model
flags when a model is configured, then the command overrides. -/
def Kiro.build_command_builder (k : Kiro) : CommandBuilder :=
  let builder := (CommandBuilder.new "kiro-cli chat").extend_params
      ["--no-interactive", "--trust-all-tools"]
  let builder :=
    match k.model with
    | some m => builder.extend_params ["--model", m]
    | none => builder
  apply_overrides builder k.cmd

/-- Modelled from the spec: `AppendPrompt::combine_prompt` yields the
user prompt with the configured suffix appended, the identity when no
suffix is configured. -/
def combine_prompt (ap : Option String) (prompt : String) : String :=
  prompt ++ ap.getD ""

/-- Modelled from the spec: `ExecutionEnv::with_profile` merges the
process environment with the named profile taken from the overrides. -/
def with_profile (env : List (String × String)) (ov : CmdOverrides) :
    List (String × String) :=
  env ++ ov.profile_env.getD []

/-- Observable steps of `spawn` / `spawn_follow_up`, in program order:
attempting `std::fs::create_dir_all` on a directory, diagnostic tracing
output, spawning the child process group with executable, arguments,
working directory and environment, writing bytes to the child's stdin, and
shutting stdin down (end-of-stream). -/
inductive SpawnEvent where
  | create_dir_all (dir : List String)
  | log (msg : List String)
  | group_spawn (exe : String) (args : List String) (cwd : List String)
      (env : List (String × String))
  | stdin_write (bytes : List UInt8)
  | stdin_close
deriving DecidableEq

/-- Outcomes of the OS interactions a spawn performs, supplied as an
oracle: whether the executable resolves, whether `create_dir_all`
succeeds, whether `group_spawn` succeeds, and whether the stdin write and
shutdown succeed. -/
structure IOOutcomes where
  resolve_ok : Bool
  create_dir_ok : Bool
  group_spawn_ok : Bool
  write_ok : Bool
  close_ok : Bool
deriving DecidableEq

/-- All OS interactions succeed. -/
def IOOutcomes.allOk : IOOutcomes :=
  ⟨true, true, true, true, true⟩

/-- `Kiro::spawn` (kiro.rs lines 60-103): build the initial command and
resolve it, combine the prompt, create the `.kiro-sessions` session
directory under the task's working directory discarding the result
(`.ok()`), spawn the child in that directory with stdin/stdout/stderr
piped, then write the combined prompt to stdin and shut stdin down,
propagating a write or shutdown failure.  Returns the event trace and the
result handed to the caller. -/
def spawn (k : Kiro) (current_dir : List String) (prompt : String)
    (env : List (String × String)) (o : IOOutcomes) :
    List SpawnEvent × Except ExecutorError Unit :=
  match into_resolved k.build_command_builder.build_initial o.resolve_ok with
  | .error e => ([], .error e)
  | .ok (exe, args) =>
    let combined := combine_prompt k.append_prompt prompt
    let session_dir := current_dir ++ [".kiro-sessions"]
    let evs := [SpawnEvent.create_dir_all session_dir,
      SpawnEvent.log ["Kiro initial: Starting NEW session"],
      SpawnEvent.group_spawn exe args session_dir (with_profile env k.cmd)]
    if o.group_spawn_ok then
      let evs := evs ++ [SpawnEvent.stdin_write combined.toUTF8.toList]
      if o.write_ok then
        let evs := evs ++ [SpawnEvent.stdin_close]
        if o.close_ok then (evs, .ok ())
        else (evs, .error .ioError)
      else (evs, .error .ioError)
    else (evs, .error .spawnFailed)

/-- `Kiro::spawn_follow_up` (kiro.rs lines 105-152): build the follow-up
command with the `--resume` flag and resolve it, reuse the same
`.kiro-sessions` path as the session directory without creating it, log
the session id for diagnostics, spawn the child in that directory, then
write the combined prompt to stdin and shut stdin down, propagating a
write or shutdown failure. -/
def spawn_follow_up (k : Kiro) (current_dir : List String) (prompt : String)
    (session_id : String) (env : List (String × String)) (o : IOOutcomes) :
    List SpawnEvent × Except ExecutorError Unit :=
  match into_resolved (k.build_command_builder.build_follow_up ["--resume"])
      o.resolve_ok with
  | .error e => ([], .error e)
  | .ok (exe, args) =>
    let combined := combine_prompt k.append_prompt prompt
    let session_dir := current_dir ++ [".kiro-sessions"]
    let evs := [SpawnEvent.log ["Kiro follow-up: RESUMING session"],
      SpawnEvent.log ["Kiro follow-up: Session ID:", session_id],
      SpawnEvent.group_spawn exe args session_dir (with_profile env k.cmd)]
    if o.group_spawn_ok then
      let evs := evs ++ [SpawnEvent.stdin_write combined.toUTF8.toList]
      if o.write_ok then
        let evs := evs ++ [SpawnEvent.stdin_close]
        if o.close_ok then (evs, .ok ())
        else (evs, .error .ioError)
      else (evs, .error .ioError)
    else (evs, .error .spawnFailed)

/-- Filesystem semantics of one spawn event: `create_dir_all` makes the
directory exist and succeeds whether or not it already exists (the
idempotence of `std::fs::create_dir_all`); no other event touches the
filesystem. -/
def apply_event (fs : List (List String)) : SpawnEvent → List (List String)
  | .create_dir_all d => if d ∈ fs then fs else d :: fs
  | _ => fs

/-- Filesystem state after a trace of spawn events. -/
def apply_events (fs : List (List String)) (evs : List SpawnEvent) :
    List (List String) :=
  evs.foldl apply_event fs

/-- Whether an event is diagnostic tracing output. -/
def SpawnEvent.isLog : SpawnEvent → Bool
  | .log _ => true
  | _ => false

/-- The non-diagnostic events of a trace. -/
def non_log_events (evs : List SpawnEvent) : List SpawnEvent :=
  evs.filter (fun e => ¬ e.isLog)

/-- Number of stdin write attempts in a trace. -/
def stdin_write_count (evs : List SpawnEvent) : Nat :=
  (evs.filter (fun e =>
    match e with
    | .stdin_write _ => true
    | _ => false)).length

/-- Script language of a `ScriptRequest` (kiro_setup.rs uses Bash). -/
inductive ScriptRequestLanguage where
  | bash
deriving DecidableEq

/-- Script context of a `ScriptRequest` (kiro_setup.rs uses the
tool-install-script context). -/
inductive ScriptContext where
  | toolInstallScript
deriving DecidableEq

/-- A `ScriptRequest` payload: script text, language, execution context
and optional working directory. -/
structure ScriptRequest where
  script : String
  language : ScriptRequestLanguage
  context : ScriptContext
  working_dir : Option (List String)
deriving DecidableEq

/-- The payload variants of an executor action that kiro_setup.rs can
produce or inherit: a script request, or an opaque inherited payload such
as a coding-agent request, identified by a tag. -/
inductive ExecutorActionType where
  | script_request (r : ScriptRequest)
  | other (tag : String)
deriving DecidableEq

/-- An `ExecutorAction`: a payload plus an optional next action, forming a
singly-linked chain. -/
inductive ExecutorAction where
  | mk (typ : ExecutorActionType) (next_action : Option ExecutorAction)

/-- The payload of an action. -/
def ExecutorAction.typ : ExecutorAction → ExecutorActionType
  | .mk t _ => t

/-- The optional successor of an action. -/
def ExecutorAction.next_action : ExecutorAction → Option ExecutorAction
  | .mk _ n => n

/-- Modelled from the spec: `append_action(new, old)` always makes `new`
precede `old` and never mutates `old`: the new action's chain continues
into the old action. -/
def ExecutorAction.append_action (new old : ExecutorAction) : ExecutorAction :=
  .mk new.typ (some old)

/-- The chain of an action: the action itself followed by the chains of
its successors, in execution order. -/
def ExecutorAction.chain : ExecutorAction → List ExecutorAction
  | .mk t none => [.mk t none]
  | .mk t (some n) => .mk t (some n) :: n.chain

/-- The terminal action of a chain: the last action to execute. -/
def ExecutorAction.terminal : ExecutorAction → ExecutorAction
  | .mk t none => .mk t none
  | .mk _ (some n) => n.terminal

/-- The install script of kiro_setup.rs (unix): installs the Kiro CLI only
if absent. -/
def install_script : String :=
  "#!/bin/bash\nset -e\necho \"Installing Kiro CLI...\"\nif ! command -v kiro-cli &> /dev/null; then\n    curl -fsSL https://cli.kiro.dev/install | bash\n    echo \"Kiro CLI installed successfully\"\nelse\n    echo \"Kiro CLI already installed\"\nfi\necho \"Note: Please run \x27kiro-cli login\x27 manually to authenticate\"\n"

/-- The install request built by `get_setup_helper_action` on unix. -/
def install_request : ScriptRequest :=
  { script := install_script,
    language := .bash,
    context := .toolInstallScript,
    working_dir := none }

/-- The standalone setup action built by `get_setup_helper_action` on
unix: the install request with no next action. -/
def setup_helper_action : ExecutorAction :=
  .mk (.script_request install_request) none

/-- Error type of the setup route (`ApiError`): a workspace validation
error or a wrapped executor error. -/
inductive ApiError where
  | workspace_validation (msg : String)
  | executor (e : ExecutorError)
deriving DecidableEq

/-- `get_setup_helper_action` (kiro_setup.rs lines 77-111): on unix,
returns the standalone install action; on non-unix platforms, fails with
the typed unsupported-platform executor error.  The platform is passed as
the boolean `unix`, standing for the `cfg(unix)` compile-time choice. -/
def get_setup_helper_action (unix : Bool) : Except ApiError ExecutorAction :=
  if unix then .ok setup_helper_action
  else .error (.executor .unsupportedPlatform)

/-- The action composition of `run_kiro_setup` (kiro_setup.rs lines
33-42) on unix, as the spec's `compose_setup` contract: with no prior
action the standalone setup action, with a prior action the setup action
whose chain continues into the prior action. -/
def compose_setup : Option ExecutorAction → ExecutorAction
  | some prior => setup_helper_action.append_action prior
  | none => setup_helper_action

/-- Database-visible side effects of `run_kiro_setup`, in program order:
ensuring the container exists, creating a session, and creating the
execution process that records the composed action. -/
inductive SetupEffect where
  | ensure_container
  | create_session
  | create_execution_process (action : ExecutorAction)

/-- `run_kiro_setup` (kiro_setup.rs lines 21-75): look up the latest
coding-agent execution process of the workspace (its action given as
`latest_action`), compose the setup action with it — propagating the
helper's error with no side effects —, ensure the container exists, reuse
the latest session or create one (`have_session` tells whether one
exists), and create the execution process recording the composed action.
Returns the effect trace and the composed action handed to the created
process. -/
def run_kiro_setup (unix : Bool) (latest_action : Option ExecutorAction)
    (have_session : Bool) :
    List SetupEffect × Except ApiError ExecutorAction :=
  let composed :=
    match latest_action with
    | some prior =>
      (get_setup_helper_action unix).map
        (fun a : ExecutorAction => a.append_action prior)
    | none => get_setup_helper_action unix
  match composed with
  | .error e => ([], .error e)
  | .ok act =>
    ([SetupEffect.ensure_container]
      ++ (if have_session then [] else [SetupEffect.create_session])
      ++ [SetupEffect.create_execution_process act], .ok act)

/-- Entry types that Kiro's `normalize_logs` produces: stdout entries are
assistant messages, stderr entries are system messages. -/
inductive NormalizedEntryType where
  | assistantMessage
  | systemMessage
deriving DecidableEq

/-- A `NormalizedEntry`: optional timestamp, entry type, content text and
optional structured metadata. -/
structure NormalizedEntry where
  timestamp : Option Nat
  entry_type : NormalizedEntryType
  content : String
  metadata : Option String
deriving DecidableEq

/-- Whether a character is the final byte of an ANSI CSI sequence
(range 0x40 to 0x7E). -/
def isCsiFinal (c : Char) : Bool :=
  decide (0x40 ≤ c.toNat ∧ c.toNat ≤ 0x7E)

/-- Consume the parameter and intermediate bytes of a CSI sequence up to
and including its final byte. -/
def skipCsi : List Char → List Char
  | [] => []
  | c :: rest => if isCsiFinal c then rest else skipCsi rest

theorem skipCsi_length_le (l : List Char) : (skipCsi l).length ≤ l.length := by
  induction l with
  | nil => simp [skipCsi]
  | cons c rest ih =>
    simp only [skipCsi]
    split
    · simp
    · exact Nat.le_trans ih (Nat.le_succ _)

/-- Modelled ANSI stripping (`strip_ansi_escapes::strip_str`), on fuel so
the recursion is structural: drop every escape character, dropping a whole
CSI sequence when the escape introduces one, and keep all other
characters.  Each step consumes at least one input character, so fuel
equal to the input length is always sufficient. -/
def stripAnsiFuel : Nat → List Char → List Char
  | _, [] => []
  | 0, _ :: _ => []
  | Nat.succ fuel, c :: rest =>
    if c = '\x1b' then
      match rest with
      | [] => []
      | r :: rest2 =>
        if r = '[' then stripAnsiFuel fuel (skipCsi rest2)
        else stripAnsiFuel fuel (r :: rest2)
    else c :: stripAnsiFuel fuel rest

/-- ANSI stripping of a character list. -/
def stripAnsiList (l : List Char) : List Char :=
  stripAnsiFuel l.length l

/-- String version of the ANSI stripper. -/
def strip_str (s : String) : String :=
  ⟨stripAnsiList s.data⟩

/-- The normalized-entry producer installed for the stdout channel
(kiro.rs lines 171-179): strip ANSI escapes from the flushed content and
wrap it as an assistant message with no timestamp and no metadata. -/
def stdout_entry_producer (content : String) : NormalizedEntry :=
  { timestamp := none,
    entry_type := .assistantMessage,
    content := strip_str content,
    metadata := none }

/-- The normalized-entry producer installed for the stderr channel
(kiro.rs lines 197-204): strip ANSI escapes from the flushed content and
wrap it as a system message with no timestamp and no metadata. -/
def stderr_entry_producer (content : String) : NormalizedEntry :=
  { timestamp := none,
    entry_type := .systemMessage,
    content := strip_str content,
    metadata := none }

/-- Flushing the pending buffer: an empty buffer produces no entry. -/
def flush_buffer (buf : String) : List String :=
  if buf.isEmpty then [] else [buf]

/-- Modelled from the spec: the time-gap coalescing of the plain-text log
processor.  A channel's input is a sequence of fragments, each tagged with
the idle time (in seconds) that preceded its arrival; a fragment arriving
after more than the quiescence window flushes the pending buffer,
otherwise it is concatenated onto it, and the remaining buffer is flushed
when the channel closes. -/
def coalesce_chunks (time_gap : Nat) (buf : String) :
    List (Nat × String) → List String
  | [] => flush_buffer buf
  | (gap, chunk) :: rest =>
    if time_gap < gap then
      flush_buffer buf ++ coalesce_chunks time_gap chunk rest
    else coalesce_chunks time_gap (buf ++ chunk) rest

/-- Modelled from the spec: one channel's run of the plain-text log
processor with a 2-second quiescence window — each flushed buffer is
turned into a normalized entry by the channel's producer.  The stamping of
entries with indices from the shared `EntryIndexProvider` is not modelled;
the claims below do not concern indices. -/
def process_channel (producer : String → NormalizedEntry)
    (chunks : List (Nat × String)) : List NormalizedEntry :=
  (coalesce_chunks 2 "" chunks).map producer

/-- Operations `normalize_logs` pushes into the message store: the session
id and normalized-entry patches. -/
inductive StoreOp where
  | push_session_id (id : String)
  | push_patch (e : NormalizedEntry)
deriving DecidableEq

/-- Whether a store operation is a session-id push. -/
def StoreOp.isSessionPush : StoreOp → Bool
  | .push_session_id _ => true
  | .push_patch _ => false

/-- Interleaving of the pushes of the two concurrently running channel
tasks, under an arbitrary boolean schedule (true picks the stdout task's
next push, false the stderr task's). -/
def sched_interleave : List Bool → List StoreOp → List StoreOp → List StoreOp
  | _, [], ys => ys
  | _, xs, [] => xs
  | [], xs, ys => xs ++ ys
  | b :: sched, x :: xs, y :: ys =>
    if b then x :: sched_interleave sched xs (y :: ys)
    else y :: sched_interleave sched (x :: xs) ys

/-- `Kiro::normalize_logs` (kiro.rs lines 154-216) as the sequence of
store operations it gives rise to: a locally fabricated session id
(`uuid::Uuid::new_v4().to_string()`, supplied as the external random value
`uuid`) is pushed first, synchronously, before the two channel tasks are
spawned; then the stdout task pushes one patch per stdout entry and the
stderr task one patch per stderr entry, the two tasks interleaving under
an arbitrary schedule. -/
def normalize_logs (uuid : String) (stdout_chunks stderr_chunks : List (Nat × String))
    (sched : List Bool) : List StoreOp :=
  StoreOp.push_session_id uuid ::
    sched_interleave sched
      ((process_channel stdout_entry_producer stdout_chunks).map StoreOp.push_patch)
      ((process_channel stderr_entry_producer stderr_chunks).map StoreOp.push_patch)

/-! Helper lemmas shared by several claims. -/

theorem build_command_builder_params (k : Kiro) :
    k.build_command_builder.params =
      ["--no-interactive", "--trust-all-tools"]
        ++ (match k.model with
            | some m => ["--model", m]
            | none => [])
        ++ k.cmd.additional_params.getD [] := by
  unfold Kiro.build_command_builder apply_overrides CommandBuilder.extend_params
    CommandBuilder.new
  cases k.model <;> simp

theorem build_initial_ne_nil (k : Kiro) :
    k.build_command_builder.build_initial ≠ [] := by
  unfold CommandBuilder.build_initial
  intro h
  rcases List.append_eq_nil.mp h with ⟨-, h2⟩
  rw [build_command_builder_params] at h2
  cases k.model <;> simp at h2

theorem build_follow_up_ne_nil (k : Kiro) :
    k.build_command_builder.build_follow_up ["--resume"] ≠ [] := by
  unfold CommandBuilder.build_follow_up
  intro h
  rcases List.append_eq_nil.mp h with ⟨-, h2⟩
  simp at h2

theorem ExecutorAction.chain_cons (t : ExecutorActionType) (n : ExecutorAction) :
    (ExecutorAction.mk t (some n)).chain = ExecutorAction.mk t (some n) :: n.chain := by
  rw [ExecutorAction.chain]

theorem ExecutorAction.terminal_some (t : ExecutorActionType) (n : ExecutorAction) :
    (ExecutorAction.mk t (some n)).terminal = n.terminal := by
  rw [ExecutorAction.terminal]

/-- C2: composing setup with no prior yields a standalone setup action
with empty next-action; composing with prior `p` yields a new setup action
whose chain continues into `p` unchanged, `p` executing after; composing
twice in sequence yields a chain whose terminal action is the very first
standalone action, intermediate actions most-recent-first. -/
theorem compose_setup_chain_correct :
    (compose_setup none).next_action = none ∧
    (∀ p : ExecutorAction,
      (compose_setup (some p)).typ = ExecutorActionType.script_request install_request ∧
      (compose_setup (some p)).next_action = some p ∧
      (compose_setup (some p)).chain = compose_setup (some p) :: p.chain) ∧
    (compose_setup (some (compose_setup none))).terminal = compose_setup none ∧
    (compose_setup (some (compose_setup none))).chain =
      [compose_setup (some (compose_setup none)), compose_setup none] := by
  refine ⟨rfl, fun p => ⟨rfl, rfl, ?_⟩, ?_, ?_⟩
  · exact ExecutorAction.chain_cons _ p
  · rw [compose_setup, compose_setup, setup_helper_action, ExecutorAction.append_action]
    rw [ExecutorAction.terminal_some]
    rfl
  · rw [compose_setup, compose_setup, setup_helper_action, ExecutorAction.append_action]
    rw [ExecutorAction.chain_cons]
    rfl

/-- C6: on non-unix platforms `get_setup_helper_action` fails with the
typed unsupported-platform error, and `run_kiro_setup` returns that error
with no side effects: no container setup, no session and no execution
process creation. -/
theorem non_unix_setup_fails_without_effects :
    get_setup_helper_action false =
      Except.error (ApiError.executor ExecutorError.unsupportedPlatform) ∧
    ∀ (latest : Option ExecutorAction) (have_session : Bool),
      run_kiro_setup false latest have_session =
        ([], Except.error (ApiError.executor ExecutorError.unsupportedPlatform)) := by
  refine ⟨rfl, fun latest hs => ?_⟩
  cases latest <;> rfl

/-- C4: the follow-up command contains the resume flag and every fixed
flag of the base command — `--no-interactive`, `--trust-all-tools`, and
the model flags when a model is configured — for every Kiro configuration,
any model selection and any command overrides. -/
theorem build_follow_up_contains_all_fixed_flags (k : Kiro) (args : List String)
    (h : args = k.build_command_builder.build_follow_up ["--resume"]) :
    "--resume" ∈ args ∧ "--no-interactive" ∈ args ∧ "--trust-all-tools" ∈ args ∧
    ∀ m : String, k.model = some m → ("--model" ∈ args ∧ m ∈ args) := by
  subst h
  unfold CommandBuilder.build_follow_up
  rw [build_command_builder_params]
  refine ⟨by simp, by simp, by simp, fun m hm => ?_⟩
  rw [hm]
  constructor <;> simp

/-- Configuration with a model selected and no overrides, used to witness
the flag-containment theorem. -/
def kiro_with_model : Kiro :=
  ⟨none, some "m1", ⟨none, none, none⟩⟩

theorem build_follow_up_contains_all_fixed_flags_witness :
    "--resume" ∈ kiro_with_model.build_command_builder.build_follow_up ["--resume"] ∧
    "--no-interactive" ∈ kiro_with_model.build_command_builder.build_follow_up ["--resume"] ∧
    "--trust-all-tools" ∈ kiro_with_model.build_command_builder.build_follow_up ["--resume"] ∧
    "--model" ∈ kiro_with_model.build_command_builder.build_follow_up ["--resume"] ∧
    "m1" ∈ kiro_with_model.build_command_builder.build_follow_up ["--resume"] := by
  obtain ⟨h1, h2, h3, h4⟩ :=
    build_follow_up_contains_all_fixed_flags kiro_with_model _ rfl
  exact ⟨h1, h2, h3, (h4 "m1" rfl).1, (h4 "m1" rfl).2⟩

/-- C3: two `spawn_follow_up` calls differing only in the session id
produce identical non-diagnostic behaviour — the same resolved executable,
argument list, child working directory, environment, stdin bytes and
result; the session id reaches only the diagnostic log events. -/
theorem spawn_follow_up_independent_of_session_id (k : Kiro) (d : List String)
    (p s1 s2 : String) (env : List (String × String)) (o : IOOutcomes) :
    non_log_events (spawn_follow_up k d p s1 env o).1 =
      non_log_events (spawn_follow_up k d p s2 env o).1 ∧
    (spawn_follow_up k d p s1 env o).2 = (spawn_follow_up k d p s2 env o).2 := by
  obtain ⟨r, c, g, w, cl⟩ := o
  unfold spawn_follow_up
  cases hres : into_resolved (k.build_command_builder.build_follow_up ["--resume"]) r with
  | error e => exact ⟨rfl, rfl⟩
  | ok pr =>
    obtain ⟨exe, args⟩ := pr
    cases g <;> cases w <;> cases cl <;>
      simp [non_log_events, SpawnEvent.isLog, List.filter]

/-- Default Kiro configuration: no prompt suffix, no model, no overrides. -/
def kiro0 : Kiro :=
  ⟨none, none, ⟨none, none, none⟩⟩

/-- C1 counterexample: on an empty filesystem, a `spawn_follow_up` call
for working directory `task` leaves the filesystem without the
`task/.kiro-sessions` subdirectory — the follow-up path performs no
directory creation, refuting the claim that it creates the missing
session subdirectory. -/
theorem spawn_follow_up_missing_dir_not_created :
    ["task", ".kiro-sessions"] ∉
      apply_events []
        (spawn_follow_up kiro0 ["task"] "p" "sid" [] IOOutcomes.allOk).1 := by
  rcases hparts : kiro0.build_command_builder.build_follow_up ["--resume"]
    with - | ⟨exe, args⟩
  · exact absurd hparts (build_follow_up_ne_nil kiro0)
  · unfold spawn_follow_up
    rw [hparts]
    simp [into_resolved, IOOutcomes.allOk, apply_events, apply_event]

/-- C1 (amended): `spawn` creates the `.kiro-sessions` session
subdirectory idempotently before the child process is started — the
creation event comes first in the trace, before the process-group spawn,
and its filesystem effect makes the directory exist while leaving a
filesystem that already contains it unchanged; `spawn_follow_up` performs
no directory creation at all, reusing the path and leaving the filesystem
untouched. -/
theorem spawn_creates_session_dir_follow_up_does_not (k : Kiro)
    (d : List String) (p sid : String) (env : List (String × String))
    (o : IOOutcomes) (fs : List (List String)) (hr : o.resolve_ok = true) :
    (∃ m exe args env2 tail,
      (spawn k d p env o).1 =
        SpawnEvent.create_dir_all (d ++ [".kiro-sessions"]) :: SpawnEvent.log m ::
          SpawnEvent.group_spawn exe args (d ++ [".kiro-sessions"]) env2 :: tail) ∧
    apply_events fs (spawn k d p env o).1 =
      (if (d ++ [".kiro-sessions"]) ∈ fs then fs
       else (d ++ [".kiro-sessions"]) :: fs) ∧
    (d ++ [".kiro-sessions"]) ∈ apply_events fs (spawn k d p env o).1 ∧
    apply_events fs (spawn_follow_up k d p sid env o).1 = fs := by
  obtain ⟨r, c, g, w, cl⟩ := o
  cases hr
  rcases hparts : k.build_command_builder.build_initial with - | ⟨exe, args⟩
  · exact absurd hparts (build_initial_ne_nil k)
  rcases hparts2 : k.build_command_builder.build_follow_up ["--resume"]
    with - | ⟨exe2, args2⟩
  · exact absurd hparts2 (build_follow_up_ne_nil k)
  unfold spawn spawn_follow_up
  rw [hparts, hparts2]
  have happ : ∀ fs2 : List (List String),
      (if (d ++ [".kiro-sessions"]) ∈ fs2 then fs2
        else (d ++ [".kiro-sessions"]) :: fs2) =
        apply_event fs2 (SpawnEvent.create_dir_all (d ++ [".kiro-sessions"])) :=
    fun fs2 => rfl
  cases g <;> cases w <;> cases cl <;>
    refine ⟨⟨_, _, _, _, _, rfl⟩, ?_, ?_, ?_⟩ <;>
    simp [into_resolved, apply_events, apply_event] <;>
    split <;> simp_all

theorem spawn_creates_session_dir_follow_up_does_not_witness :
    IOOutcomes.allOk.resolve_ok = true ∧
    (["t", ".kiro-sessions"] ∈
      apply_events [] (spawn kiro0 ["t"] "p" [] IOOutcomes.allOk).1) ∧
    apply_events [] (spawn_follow_up kiro0 ["t"] "p" "s" [] IOOutcomes.allOk).1 = [] := by
  have h := spawn_creates_session_dir_follow_up_does_not kiro0 ["t"] "p" "s" []
    IOOutcomes.allOk [] rfl
  exact ⟨rfl, h.2.2.1, h.2.2.2⟩

/-- C8: `spawn` discards the result of the session-directory creation —
its trace and result are identical whether `create_dir_all` succeeds or
fails — and, when the command resolves, it proceeds to attempt process
creation (the process-group spawn event is in the trace) with no error
returned at the directory-creation step. -/
theorem spawn_discards_create_dir_failure (k : Kiro) (d : List String)
    (p : String) (env : List (String × String)) (o : IOOutcomes)
    (hr : o.resolve_ok = true) :
    spawn k d p env { o with create_dir_ok := false } =
      spawn k d p env { o with create_dir_ok := true } ∧
    ∃ exe args env2,
      SpawnEvent.group_spawn exe args (d ++ [".kiro-sessions"]) env2 ∈
        (spawn k d p env { o with create_dir_ok := false }).1 := by
  obtain ⟨r, c, g, w, cl⟩ := o
  cases hr
  refine ⟨rfl, ?_⟩
  rcases hparts : k.build_command_builder.build_initial with - | ⟨exe, args⟩
  · exact absurd hparts (build_initial_ne_nil k)
  unfold spawn
  rw [hparts]
  refine ⟨exe, args, with_profile env k.cmd, ?_⟩
  cases g <;> cases w <;> cases cl <;> simp [into_resolved]

theorem spawn_discards_create_dir_failure_witness :
    IOOutcomes.allOk.resolve_ok = true ∧
    spawn kiro0 ["t"] "p" [] { IOOutcomes.allOk with create_dir_ok := false } =
      spawn kiro0 ["t"] "p" [] { IOOutcomes.allOk with create_dir_ok := true } := by
  have h := spawn_discards_create_dir_failure kiro0 ["t"] "p" [] IOOutcomes.allOk rfl
  exact ⟨rfl, h.1⟩

/-- C5: on all-successful OS interactions both `spawn` and
`spawn_follow_up` end their traces by writing the full combined prompt as
UTF-8 to stdin and then closing stdin, and return success; every stdin
write attempt either function ever makes carries the full combined prompt
(never a partial prompt); a write or close failure makes the call return
an error, not success; and no trace contains more than one stdin write
(no retry). -/
theorem prompt_written_fully_then_closed (k : Kiro) (d : List String)
    (p sid : String) (env : List (String × String)) (o : IOOutcomes) :
    ((spawn k d p env IOOutcomes.allOk).2 = Except.ok () ∧
      ∃ pre, (spawn k d p env IOOutcomes.allOk).1 =
        pre ++ [SpawnEvent.stdin_write (combine_prompt k.append_prompt p).toUTF8.toList,
          SpawnEvent.stdin_close]) ∧
    ((spawn_follow_up k d p sid env IOOutcomes.allOk).2 = Except.ok () ∧
      ∃ pre, (spawn_follow_up k d p sid env IOOutcomes.allOk).1 =
        pre ++ [SpawnEvent.stdin_write (combine_prompt k.append_prompt p).toUTF8.toList,
          SpawnEvent.stdin_close]) ∧
    (∀ bs, SpawnEvent.stdin_write bs ∈ (spawn k d p env o).1 →
      bs = (combine_prompt k.append_prompt p).toUTF8.toList) ∧
    (∀ bs, SpawnEvent.stdin_write bs ∈ (spawn_follow_up k d p sid env o).1 →
      bs = (combine_prompt k.append_prompt p).toUTF8.toList) ∧
    ((o.write_ok = false ∨ o.close_ok = false) →
      (∀ u, (spawn k d p env o).2 ≠ Except.ok u) ∧
      (∀ u, (spawn_follow_up k d p sid env o).2 ≠ Except.ok u)) ∧
    stdin_write_count (spawn k d p env o).1 ≤ 1 ∧
    stdin_write_count (spawn_follow_up k d p sid env o).1 ≤ 1 := by
  obtain ⟨r, c, g, w, cl⟩ := o
  rcases hparts : k.build_command_builder.build_initial with - | ⟨exe, args⟩
  · exact absurd hparts (build_initial_ne_nil k)
  rcases hparts2 : k.build_command_builder.build_follow_up ["--resume"]
    with - | ⟨exe2, args2⟩
  · exact absurd hparts2 (build_follow_up_ne_nil k)
  unfold spawn spawn_follow_up
  rw [hparts, hparts2]
  refine ⟨⟨rfl, ?_⟩, ⟨rfl, ?_⟩, ?_, ?_, ?_, ?_, ?_⟩
  · refine ⟨[SpawnEvent.create_dir_all (d ++ [".kiro-sessions"]),
      SpawnEvent.log ["Kiro initial: Starting NEW session"],
      SpawnEvent.group_spawn exe args (d ++ [".kiro-sessions"])
        (with_profile env k.cmd)], ?_⟩
    simp [into_resolved, IOOutcomes.allOk]
  · refine ⟨[SpawnEvent.log ["Kiro follow-up: RESUMING session"],
      SpawnEvent.log ["Kiro follow-up: Session ID:", sid],
      SpawnEvent.group_spawn exe2 args2 (d ++ [".kiro-sessions"])
        (with_profile env k.cmd)], ?_⟩
    simp [into_resolved, IOOutcomes.allOk]
  all_goals
    cases r <;> cases g <;> cases w <;> cases cl <;>
      simp [into_resolved, stdin_write_count, List.filter]

/-- Outcome oracle with a failing stdin write, used to witness the
prompt-delivery theorem. -/
def outcome_write_fails : IOOutcomes :=
  ⟨true, true, true, false, true⟩

theorem prompt_written_fully_then_closed_witness :
    (outcome_write_fails.write_ok = false ∨ outcome_write_fails.close_ok = false) ∧
    (spawn kiro0 ["t"] "p" [] outcome_write_fails).2 ≠ Except.ok () ∧
    (spawn_follow_up kiro0 ["t"] "p" "s" [] outcome_write_fails).2 ≠ Except.ok () ∧
    (spawn kiro0 ["t"] "p" [] IOOutcomes.allOk).2 = Except.ok () := by
  have h := prompt_written_fully_then_closed kiro0 ["t"] "p" "s" [] outcome_write_fails
  have hfail := h.2.2.2.2.1 (Or.inl rfl)
  exact ⟨Or.inl rfl, hfail.1 (), hfail.2 (), h.1.1⟩

theorem esc_not_mem_stripAnsiFuel (fuel : Nat) :
    ∀ l : List Char, '\x1b' ∉ stripAnsiFuel fuel l := by
  induction fuel with
  | zero =>
    intro l
    cases l with
    | nil => exact List.not_mem_nil _
    | cons c rest => exact List.not_mem_nil _
  | succ fuel ih =>
    intro l
    cases l with
    | nil => simp [stripAnsiFuel]
    | cons c rest =>
      by_cases hc : c = '\x1b'
      · subst hc
        cases rest with
        | nil => simp [stripAnsiFuel]
        | cons r rest2 =>
          by_cases hr : r = '['
          · subst hr
            simpa [stripAnsiFuel] using ih (skipCsi rest2)
          · simpa [stripAnsiFuel, hr] using ih (r :: rest2)
      · simp only [stripAnsiFuel, if_neg hc, List.mem_cons, not_or]
        exact ⟨fun h => hc h.symm, ih rest⟩

theorem esc_not_mem_strip_str (s : String) : '\x1b' ∉ (strip_str s).data :=
  esc_not_mem_stripAnsiFuel s.data.length s.data

theorem sched_interleave_nil_left (sched : List Bool) (ys : List StoreOp) :
    sched_interleave sched [] ys = ys := by
  cases sched <;> cases ys <;> rfl

theorem sched_interleave_nil_right (sched : List Bool) (xs : List StoreOp) :
    sched_interleave sched xs [] = xs := by
  cases sched <;> cases xs <;> rfl

theorem sched_interleave_nil_sched (x : StoreOp) (xs : List StoreOp)
    (y : StoreOp) (ys : List StoreOp) :
    sched_interleave [] (x :: xs) (y :: ys) = x :: xs ++ y :: ys := rfl

theorem sched_interleave_cons (b : Bool) (sched : List Bool) (x : StoreOp)
    (xs : List StoreOp) (y : StoreOp) (ys : List StoreOp) :
    sched_interleave (b :: sched) (x :: xs) (y :: ys) =
      if b then x :: sched_interleave sched xs (y :: ys)
      else y :: sched_interleave sched (x :: xs) ys := rfl

theorem mem_sched_interleave (sched : List Bool) (xs ys : List StoreOp)
    (op : StoreOp) (h : op ∈ sched_interleave sched xs ys) :
    op ∈ xs ∨ op ∈ ys := by
  induction sched generalizing xs ys with
  | nil =>
    cases xs with
    | nil => rw [sched_interleave_nil_left] at h; exact Or.inr h
    | cons x xs =>
      cases ys with
      | nil => rw [sched_interleave_nil_right] at h; exact Or.inl h
      | cons y ys =>
        rw [sched_interleave_nil_sched] at h
        exact List.mem_append.mp h
  | cons b sched ih =>
    cases xs with
    | nil => rw [sched_interleave_nil_left] at h; exact Or.inr h
    | cons x xs =>
      cases ys with
      | nil => rw [sched_interleave_nil_right] at h; exact Or.inl h
      | cons y ys =>
        rw [sched_interleave_cons] at h
        cases b with
        | true =>
          rw [if_pos rfl] at h
          rcases List.mem_cons.mp h with h1 | h2
          · exact Or.inl (List.mem_cons.mpr (Or.inl h1))
          · rcases ih xs (y :: ys) h2 with h3 | h4
            · exact Or.inl (List.mem_cons_of_mem _ h3)
            · exact Or.inr h4
        | false =>
          rw [if_neg (by simp)] at h
          rcases List.mem_cons.mp h with h1 | h2
          · exact Or.inr (List.mem_cons.mpr (Or.inl h1))
          · rcases ih (x :: xs) ys h2 with h3 | h4
            · exact Or.inl h3
            · exact Or.inr (List.mem_cons_of_mem _ h4)

/-- C7: every normalized entry a channel of `normalize_logs` emits has its
content produced by the ANSI stripper before classification — the content
is the stripped form of the flushed text and contains no escape
character — and its entry type is fixed by the channel's role: stdout
entries are assistant messages, stderr entries are system messages. -/
theorem normalized_entries_types_and_ansi_free (chunks : List (Nat × String))
    (e : NormalizedEntry) :
    (e ∈ process_channel stdout_entry_producer chunks →
      e.entry_type = NormalizedEntryType.assistantMessage ∧
      (∃ s, e.content = strip_str s) ∧ '\x1b' ∉ e.content.data) ∧
    (e ∈ process_channel stderr_entry_producer chunks →
      e.entry_type = NormalizedEntryType.systemMessage ∧
      (∃ s, e.content = strip_str s) ∧ '\x1b' ∉ e.content.data) := by
  constructor <;> intro hmem <;>
    obtain ⟨s, -, rfl⟩ := List.mem_map.mp hmem <;>
    exact ⟨rfl, ⟨s, rfl⟩, esc_not_mem_strip_str s⟩

theorem normalized_entries_types_and_ansi_free_witness :
    (stdout_entry_producer "a\x1b[31mb" ∈
      process_channel stdout_entry_producer [(0, "a\x1b[31mb")]) ∧
    (stdout_entry_producer "a\x1b[31mb").entry_type =
      NormalizedEntryType.assistantMessage ∧
    '\x1b' ∉ (stdout_entry_producer "a\x1b[31mb").content.data ∧
    (stderr_entry_producer "oops" ∈
      process_channel stderr_entry_producer [(0, "oops")]) ∧
    (stderr_entry_producer "oops").entry_type =
      NormalizedEntryType.systemMessage := by
  have hmem1 : stdout_entry_producer "a\x1b[31mb" ∈
      process_channel stdout_entry_producer [(0, "a\x1b[31mb")] := by
    rw [show process_channel stdout_entry_producer [(0, "a\x1b[31mb")] =
      [stdout_entry_producer "a\x1b[31mb"] from rfl]
    exact List.mem_singleton.mpr rfl
  have hmem2 : stderr_entry_producer "oops" ∈
      process_channel stderr_entry_producer [(0, "oops")] := by
    rw [show process_channel stderr_entry_producer [(0, "oops")] =
      [stderr_entry_producer "oops"] from rfl]
    exact List.mem_singleton.mpr rfl
  have h1 := (normalized_entries_types_and_ansi_free [(0, "a\x1b[31mb")]
    (stdout_entry_producer "a\x1b[31mb")).1 hmem1
  have h2 := (normalized_entries_types_and_ansi_free [(0, "oops")]
    (stderr_entry_producer "oops")).2 hmem2
  exact ⟨hmem1, h1.1, h1.2.2, hmem2, h2.1⟩

/-- C9: every run of `normalize_logs` pushes exactly one session id to the
message store, as its very first store operation, before any normalized
entry; the pushed id is the locally fabricated random UUID, the same
whatever the external tool writes on its streams. -/
theorem normalize_logs_session_id_once_first (uuid : String)
    (so se : List (Nat × String)) (sched : List Bool) :
    (normalize_logs uuid so se sched).head? =
      some (StoreOp.push_session_id uuid) ∧
    (normalize_logs uuid so se sched).filter StoreOp.isSessionPush =
      [StoreOp.push_session_id uuid] ∧
    ∀ (so2 se2 : List (Nat × String)) (sched2 : List Bool),
      (normalize_logs uuid so se sched).filter StoreOp.isSessionPush =
        (normalize_logs uuid so2 se2 sched2).filter StoreOp.isSessionPush := by
  have key : ∀ (a b : List (Nat × String)) (s : List Bool),
      (sched_interleave s
        ((process_channel stdout_entry_producer a).map StoreOp.push_patch)
        ((process_channel stderr_entry_producer b).map StoreOp.push_patch)).filter
          StoreOp.isSessionPush = [] := by
    intro a b s
    rw [List.filter_eq_nil_iff]
    intro op hop
    rcases mem_sched_interleave _ _ _ _ hop with h | h <;>
      obtain ⟨e2, -, rfl⟩ := List.mem_map.mp h <;> simp [StoreOp.isSessionPush]
  refine ⟨rfl, ?_, ?_⟩
  · simp [normalize_logs, List.filter, StoreOp.isSessionPush, key]
  · intro so2 se2 sched2
    simp [normalize_logs, List.filter, StoreOp.isSessionPush, key]

/-- C10: every normalized entry Kiro produces, on the stdout and the
stderr channel alike, has no timestamp and no metadata. -/
theorem normalized_entries_no_timestamp_no_metadata
    (chunks : List (Nat × String)) (e : NormalizedEntry)
    (h : e ∈ process_channel stdout_entry_producer chunks ∨
      e ∈ process_channel stderr_entry_producer chunks) :
    e.timestamp = none ∧ e.metadata = none := by
  rcases h with h | h <;>
    obtain ⟨s, -, rfl⟩ := List.mem_map.mp h <;> exact ⟨rfl, rfl⟩

theorem normalized_entries_no_timestamp_no_metadata_witness :
    (stdout_entry_producer "hello" ∈
      process_channel stdout_entry_producer [(0, "hello")] ∨
      stdout_entry_producer "hello" ∈
        process_channel stderr_entry_producer [(0, "hello")]) ∧
    (stdout_entry_producer "hello").timestamp = none ∧
    (stdout_entry_producer "hello").metadata = none := by
  have hmem : stdout_entry_producer "hello" ∈
      process_channel stdout_entry_producer [(0, "hello")] := by
    rw [show process_channel stdout_entry_producer [(0, "hello")] =
      [stdout_entry_producer "hello"] from rfl]
    exact List.mem_singleton.mpr rfl
  have h := normalized_entries_no_timestamp_no_metadata [(0, "hello")]
    (stdout_entry_producer "hello") (Or.inl hmem)
  exact ⟨Or.inl hmem, h.1, h.2⟩
